import Mathlib

/-!
Verification of the literature-search skill repository.

Shallow embedding of the Python modules `paper_utils.py`,
`topic_classifier.py`, `relevance_scorer.py`, `field_detector.py`,
`pubmed_search.py` and `semantic_scholar_search.py`.

Strings are modelled as `List Char`; Python whitespace, `str.strip`,
`str.lower` (ASCII range), `str.count` (non-overlapping), `str.split`
and the `in` substring test are modelled explicitly.  IEEE-754 double
arithmetic in the relevance scorer is modelled exactly over `ℚ` with
round-to-nearest-even.
-/

namespace Skills

/-- Characters matched by Python's `str.isspace` / regex `\s` (the
whitespace code points relevant to this development). -/
def pyIsSpace (c : Char) : Bool :=
  c = ' ' || c = '\t' || c = '\n' || c = '\r' ||
  c = Char.ofNat 0x0b || c = Char.ofNat 0x0c ||
  c = Char.ofNat 0x1c || c = Char.ofNat 0x1d ||
  c = Char.ofNat 0x1e || c = Char.ofNat 0x1f ||
  c = Char.ofNat 0x85 || c = Char.ofNat 0xa0

/-- Python `str.strip()`: remove leading and trailing whitespace. -/
def pyStrip (l : List Char) : List Char :=
  ((((l.dropWhile pyIsSpace).reverse).dropWhile pyIsSpace).reverse)

/-- ASCII lower-casing of one character, as Python `str.lower` acts on
the ASCII range. -/
def asciiLower (c : Char) : Char :=
  if 'A' ≤ c && c ≤ 'Z' then Char.ofNat (c.toNat + 32) else c

/-- Python `str.lower()` on the ASCII range. -/
def lowerStr (l : List Char) : List Char := l.map asciiLower

/-- The characters of a string literal. -/
def s2l (s : String) : List Char := s.data

/-- Python substring test `pat in hay`. -/
def containsSub (hay pat : List Char) : Bool :=
  hay.tails.any (fun s => pat.isPrefixOf s)

/-- Left-to-right scan for non-overlapping occurrences of a non-empty
pattern.  `fuel` is structural-recursion fuel, an upper bound on the
number of scan steps (each step consumes at least one character of the
haystack, so `hay.length + 1` always suffices). -/
def pyCountAux : Nat → List Char → List Char → Nat
  | 0, _, _ => 0
  | fuel + 1, hay, pat =>
      if pat.isPrefixOf hay then 1 + pyCountAux fuel (hay.drop pat.length) pat
      else
        match hay with
        | [] => 0
        | _ :: t => pyCountAux fuel t pat

/-- Python `hay.count(pat)`: number of non-overlapping occurrences,
scanning left to right (`hay.count("")` is `len + 1`). -/
def pyCount (hay pat : List Char) : Nat :=
  match pat with
  | [] => hay.length + 1
  | _ :: _ => pyCountAux (hay.length + 1) hay pat

/-- Splitting scan for `str.split()`; `fuel` is structural-recursion
fuel, an upper bound on the string length (each step consumes at least
one character). -/
def splitWsAux : Nat → List Char → List (List Char)
  | 0, _ => []
  | fuel + 1, l =>
      match l with
      | [] => []
      | c :: t =>
          if pyIsSpace c then splitWsAux fuel t
          else (c :: t.takeWhile (fun x => !pyIsSpace x)) ::
               splitWsAux fuel (t.dropWhile (fun x => !pyIsSpace x))

/-- Python `str.split()` with no argument: split on whitespace runs,
discarding empty fields. -/
def splitWs (l : List Char) : List (List Char) :=
  splitWsAux l.length l

/-! ## `paper_utils.sanitize_query` -/

/-- Character class `[a-zA-Z0-9\s\-,.'"():?!\[\]]` of the sanitizer's
whitelist regex. -/
def allowedChar (c : Char) : Bool :=
  (('a' ≤ c && c ≤ 'z') || ('A' ≤ c && c ≤ 'Z') || ('0' ≤ c && c ≤ '9')) ||
  pyIsSpace c ||
  c = '-' || c = ',' || c = '.' || c = Char.ofNat 39 || c = '"' ||
  c = '(' || c = ')' || c = ':' || c = '?' || c = '!' ||
  c = '[' || c = ']'

/-- Lower-cased SQL keywords of the injection pattern
`;\s*(DROP|DELETE|INSERT|UPDATE|SELECT)`. -/
def sqlKeywords : List (List Char) :=
  [s2l "drop", s2l "delete", s2l "insert", s2l "update", s2l "select"]

/-- After a semicolon: skip the whitespace run and test for an SQL
keyword.  (The keywords start with a letter, so skipping the whole
whitespace run is equivalent to the regex's `\s*` backtracking.) -/
def sqlKeywordAfterWs (t : List Char) : Bool :=
  sqlKeywords.any (fun k => k.isPrefixOf (t.dropWhile pyIsSpace))

/-- Search for the pattern `;\s*(DROP|DELETE|INSERT|UPDATE|SELECT)`
anywhere in the (lower-cased) string. -/
def sqlAfterSemicolon : List Char → Bool
  | [] => false
  | c :: t => (c = ';' && sqlKeywordAfterWs t) || sqlAfterSemicolon t

/-- The `dangerous_patterns` loop of `sanitize_query`: each of the six
regexes searched case-insensitively (modelled on the lower-cased
query, with lower-cased literals). -/
def hasDangerousPattern (q : List Char) : Bool :=
  let lq := lowerStr q
  sqlAfterSemicolon lq ||
  (containsSub lq (s2l "&&") || containsSub lq (s2l "||")) ||
  containsSub lq (s2l "<script") ||
  containsSub lq (s2l "javascript:") ||
  containsSub lq (s2l "$(") ||
  containsSub lq (s2l "`")

/-- `paper_utils.sanitize_query`: reject empty input, strip, reject
over-long input, reject any character outside the whitelist (the
anchored regex `^[...]+$` also rejects the empty stripped string),
reject injection patterns; otherwise return the stripped query. -/
def sanitize_query (q : List Char) : Option (List Char) :=
  if q = [] then none
  else
    let t := pyStrip q
    if 200 < t.length then none
    else if !(!t.isEmpty && t.all allowedChar) then none
    else if hasDangerousPattern t then none
    else some t

/-- The spec's whitelist condition for `sanitize_query`, phrased as in
the claim: the trimmed string is non-empty, at most 200 characters,
drawn from the allowed character class, and free of the six injection
signatures. -/
def sanitizeSpecOk (q : List Char) : Bool :=
  let t := pyStrip q
  !t.isEmpty && t.length ≤ 200 && t.all allowedChar && !hasDangerousPattern t

/-! ## `paper_utils.rate_limit_request` (modelled wall clock)

State per API name: the stored time of the last call (`none` before the
first call).  `time.time()` is modelled by an explicit clock value in
`ℚ`; `time.sleep` advances the clock by exactly the requested amount.
The function stores `time.time()` taken *after* the sleep, i.e. the
completion time. -/

/-- `RATE_LIMIT_SECONDS = 2.0`. -/
def RATE_LIMIT_SECONDS : ℚ := 2

/-- One `rate_limit_request` call for a fixed API name, started at clock
value `now` with stored last-call time `last`.  Returns the completion
time together with the new stored last-call time. -/
def rate_limit_request (now : ℚ) (last : Option ℚ) : ℚ × ℚ :=
  match last with
  | none => (now, now)
  | some t =>
      if now - t < RATE_LIMIT_SECONDS
      then (t + RATE_LIMIT_SECONDS, t + RATE_LIMIT_SECONDS)
      else (now, now)

/-- Completion times of a sequence of `rate_limit_request` calls for one
API name, given the call start times. -/
def completions : Option ℚ → List ℚ → List ℚ
  | _, [] => []
  | last, s :: rest =>
      let r := rate_limit_request s last
      r.1 :: completions (some r.2) rest

/-- A list of start times is back-to-back admissible: each call starts
no earlier than the completion of the previous call. -/
def chainOk : Option ℚ → List ℚ → Bool
  | _, [] => true
  | none, s :: rest => chainOk (some (rate_limit_request s none).2) rest
  | some c, s :: rest =>
      decide (c ≤ s) && chainOk (some (rate_limit_request s (some c)).2) rest

/-! ## `paper_utils.cache_results` / `get_cached_results` -/

/-- One stored cache entry: the value `cache.set` writes, the
`timestamp` recorded inside the entry, and the `expire` argument
passed to `diskcache` (in seconds). -/
structure CachedItem (α : Type) where
  results : α
  timestamp : ℚ
  expireSeconds : ℚ
  deriving Repr

/-- `paper_utils.cache_results`: store the result list under the hashed
key with a fixed `expire=86400` (24 hours), for every query, result
list and source. -/
def cache_results {α : Type} (results : α) (now : ℚ) : CachedItem α :=
  { results := results, timestamp := now, expireSeconds := 86400 }

/-- `paper_utils.get_cached_results`: `item` is what `cache.get`
returns (`none` once `diskcache` has expired the entry); on a hit the
age is re-checked against 24 hours and stale entries are rejected
(and deleted). -/
def get_cached_results {α : Type} (item : Option (CachedItem α)) (now : ℚ) :
    Option α :=
  match item with
  | none => none
  | some it => if now - it.timestamp < 24 * 3600 then some it.results else none
/-! ## `paper_utils.validate_paper_data`

A paper dictionary is modelled by `Option`-valued fields: the outer
`Option` is key presence, and for `year` the inner `Option ℤ` is the
stored value (`none` models Python `None`). -/

/-- The fields of a paper dictionary that `validate_paper_data`
inspects: `title`, `authors` and `year` (each possibly absent; the
`year` value itself may be Python `None`). -/
structure PaperRecord where
  title : Option String
  authors : Option (List String)
  year : Option (Option ℤ)
  deriving Repr, DecidableEq

/-- `paper_utils.validate_paper_data`: the three required keys must be
present; `len(title) <= 500`; and — only when the year value is truthy
(non-`None` and non-zero) — `1900 <= year <= current_year + 1`.
`cy` is `datetime.now().year`. -/
def validate_paper_data (cy : ℤ) (p : PaperRecord) : Bool :=
  if p.title.isNone then false
  else if p.authors.isNone then false
  else if p.year.isNone then false
  else if 500 < (p.title.getD "").length then false
  else
    match p.year.join with
    | some y => if y ≠ 0 then decide (1900 ≤ y ∧ y ≤ cy + 1) else true
    | none => true

/-- The claim's validity gate, phrased as in the spec: `title`,
`authors`, `year` keys present, title at most 500 characters, and for
every present year value `y`, `1900 ≤ y ≤ current_year + 1`. -/
def claimValidRecord (cy : ℤ) (p : PaperRecord) : Bool :=
  p.title.isSome && p.authors.isSome && p.year.isSome &&
  (p.title.getD "").length ≤ 500 &&
  (match p.year.join with
   | some y => decide (1900 ≤ y ∧ y ≤ cy + 1)
   | none => true)

/-- The amended validity gate: as `claimValidRecord`, but the year
range check applies only to a Python-truthy year value — a year of `0`
(or `None`) bypasses it, exactly as `if year:` does. -/
def amendedValidRecord (cy : ℤ) (p : PaperRecord) : Bool :=
  p.title.isSome && p.authors.isSome && p.year.isSome &&
  (p.title.getD "").length ≤ 500 &&
  (match p.year.join with
   | some y => if y = 0 then true else decide (1900 ≤ y ∧ y ≤ cy + 1)
   | none => true)

/-! ## Remote-fetch outcomes (pubmed_search / semantic_scholar_search)

The network boundary is modelled explicitly: a request either raises
(timeout / connection error) or yields a status code and a body; a
body parses or raises; each record of a PubMed XML body parses to a
paper or raises (the per-article `try` returns `None`). -/

/-- Python exceptions relevant to the adapters. -/
inductive PyExn
  | timeout
  | connectionError
  | jsonDecodeError
  | xmlParseError
  deriving Repr, DecidableEq

/-- Outcome of one `session.get` call: raise, or a status code with a
response body. -/
inductive HttpResult (β : Type)
  | timeout
  | connError
  | success (status : Nat) (body : β)

/-- Python `try ... except: return default` around an exception-raising
computation. -/
def pyTry {α : Type} (x : Except PyExn α) (default : α) : Except PyExn α :=
  match x with
  | .ok a => .ok a
  | .error _ => .ok default

/-- A raw Semantic Scholar record as `_standardize_paper` reads it:
each field is `none` when the key is absent or holds a falsy/`None`
value.  An author entry is `none` when the author object is falsy or
lacks a `name` key.  The `journal` outer `Option` is truthiness of the
journal object, the inner one presence of its `name`. -/
structure RawS2Paper where
  title : Option String
  authors : List (Option String)
  year : Option ℤ
  doi : Option String
  abstract : Option String
  citationCount : Option ℤ
  journal : Option (Option String)
  venue : Option String
  isOpenAccess : Option Bool
  url : Option String

/-- A paper in the adapters' standardized format (the fields relevant
to validation and ranking). -/
structure StdPaper where
  title : String
  authors : List String
  year : Option ℤ
  doi : Option String
  abstract : String
  citation_count : ℤ
  journal : Option String
  is_open_access : Bool
  url : String

/-- `SemanticScholarSearch._standardize_paper`. -/
def standardize_paper (r : RawS2Paper) : StdPaper :=
  { title := r.title.getD "Unknown Title"
    authors := r.authors.filterMap id
    year := r.year
    doi := r.doi
    abstract := r.abstract.getD ""
    citation_count := r.citationCount.getD 0
    journal :=
      match r.journal with
      | some (some n) => some n
      | _ => match r.venue with
             | some v => some v
             | none => none
    is_open_access := r.isOpenAccess.getD false
    url := r.url.getD "" }

/-- The dictionary view of a standardized paper: every required key is
present, the year key holding the (possibly `None`) year value. -/
def stdToRecord (p : StdPaper) : PaperRecord :=
  { title := some p.title, authors := some p.authors, year := some p.year }

/-- Body of a Semantic Scholar search response: `response.json()`
either raises or yields the `data` record list. -/
inductive JsonBody
  | malformed
  | parsed (papers : List RawS2Paper)

/-- The `session.get` step of `_search_papers`, with exceptions
explicit. -/
def s2_request (r : HttpResult JsonBody) : Except PyExn (Nat × JsonBody) :=
  match r with
  | .timeout => .error .timeout
  | .connError => .error .connectionError
  | .success s b => .ok (s, b)

/-- `response.json()` with exceptions explicit. -/
def parseJson : JsonBody → Except PyExn (List RawS2Paper)
  | .malformed => .error .jsonDecodeError
  | .parsed ps => .ok ps

/-- The `try` body of `SemanticScholarSearch._search_papers`: on status
200 parse the body, standardize each record and keep only those
passing `validate_paper_data`; on 429 or any other status return `[]`.
May raise. -/
def s2_search_body (cy : ℤ) (r : HttpResult JsonBody) :
    Except PyExn (List StdPaper) := do
  let (status, body) ← s2_request r
  if status = 200 then do
    let papers ← parseJson body
    pure ((papers.map standardize_paper).filter
      (fun p => validate_paper_data cy (stdToRecord p)))
  else
    pure []

/-- `SemanticScholarSearch._search_papers`: the body wrapped in its
`try/except` handlers, every handler returning `[]`. -/
def s2_search_papers (cy : ℤ) (r : HttpResult JsonBody) :
    Except PyExn (List StdPaper) :=
  pyTry (s2_search_body cy r) []

/-- Body of a PubMed esearch response: `response.json()` either raises
or yields the PMID id list. -/
inductive PmidBody
  | malformed
  | ids (pmids : List String)

/-- A paper parsed from one `PubmedArticle` XML element (fields as
built by `PubMedSearch._parse_article`). -/
structure PubmedPaper where
  title : String
  authors : List String
  year : Option ℤ
  doi : Option String
  abstract : String
  journal : Option String
  is_open_access : Bool
  pmid : Option String

/-- Body of a PubMed efetch response: `ET.fromstring` either raises or
yields a list of articles, each of which `_parse_article` turns into a
paper or (on a per-record exception) `None`. -/
inductive XmlBody
  | malformedXml
  | articles (arts : List (Option PubmedPaper))

/-- The dictionary view of a parsed PubMed paper. -/
def pubmedToRecord (p : PubmedPaper) : PaperRecord :=
  { title := some p.title, authors := some p.authors, year := some p.year }

/-- `PubMedSearch._search_pmids`: its own `try/except` turns any raise
into `[]`; a non-200 status also yields `[]`. -/
def pubmed_search_pmids (r : HttpResult PmidBody) : List String :=
  match r with
  | .timeout => []
  | .connError => []
  | .success status body =>
      if status = 200 then
        match body with
        | .malformed => []
        | .ids pmids => pmids
      else []

/-- `PubMedSearch._fetch_paper_details`: empty PMID list short-circuits;
its own `try/except` turns any raise into `[]`; on 200 each parsed
article is kept only if `_parse_article` succeeded and
`validate_paper_data` accepts it. -/
def pubmed_fetch_details (cy : ℤ) (pmids : List String)
    (r : HttpResult XmlBody) : List PubmedPaper :=
  if pmids = [] then []
  else
    match r with
    | .timeout => []
    | .connError => []
    | .success status body =>
        if status = 200 then
          match body with
          | .malformedXml => []
          | .articles arts =>
              arts.filterMap (fun a =>
                match a with
                | none => none
                | some p =>
                    if validate_paper_data cy (pubmedToRecord p)
                    then some p else none)
        else []

/-- The `try` body of `PubMedSearch._search_papers`: search PMIDs, then
fetch details (both helpers already catch their own exceptions). -/
def pubmed_search_body (cy : ℤ) (r1 : HttpResult PmidBody)
    (r2 : HttpResult XmlBody) : Except PyExn (List PubmedPaper) :=
  let pmids := pubmed_search_pmids r1
  if pmids = [] then .ok []
  else .ok (pubmed_fetch_details cy pmids r2)

/-- `PubMedSearch._search_papers`: the body wrapped in its outer
`try/except`, which returns `[]` on any exception. -/
def pubmed_search_papers (cy : ℤ) (r1 : HttpResult PmidBody)
    (r2 : HttpResult XmlBody) : Except PyExn (List PubmedPaper) :=
  pyTry (pubmed_search_body cy r1 r2) []

/-- `Except.isOk` for the adapters' results. -/
def exceptOk {ε α : Type} : Except ε α → Bool
  | .ok _ => true
  | .error _ => false

/-! ## Exact model of IEEE-754 double arithmetic

`relevance_scorer.py` computes `int((total_score / 400) * 100)` in
Python floats.  Both operations are modelled exactly: a positive
double is the pair `(m, u)` of its integer significand and the
exponent of its unit in the last place, denoting the real value
`m * 2 ^ u` with `2 ^ 52 ≤ m < 2 ^ 53`; every operation rounds its
exact rational result to the nearest such value, halves to even.  The
values of this program stay far inside the normal range, so
subnormals and overflow need no modelling. -/

/-- `⌊log₂ n⌋` for `1 ≤ n` (and `0` for `n ≤ 1`); `fuel` is
structural-recursion fuel, an upper bound on the number of halvings
(`n` itself always suffices). -/
def natLog2Aux : Nat → Nat → Nat
  | 0, _ => 0
  | fuel + 1, n => if n ≤ 1 then 0 else 1 + natLog2Aux fuel (n / 2)

/-- `⌊log₂ n⌋` for `1 ≤ n` (and `0` for `n = 0`). -/
def natLog2 (n : Nat) : Nat := natLog2Aux n n

/-- Whether `n / d < 2 ^ k`, for naturals `n`, `d ≥ 1` and an integer
exponent `k`. -/
def ratLtPow (n d : Nat) (k : ℤ) : Bool :=
  if 0 ≤ k then n < d * 2 ^ k.toNat else n * 2 ^ (-k).toNat < d

/-- `⌊log₂ (n / d)⌋` for `n`, `d ≥ 1`: the candidate
`⌊log₂ n⌋ - ⌊log₂ d⌋` is off by at most one and is corrected by one
comparison. -/
def floorLog2Rat (n d : Nat) : ℤ :=
  let k : ℤ := (natLog2 n : ℤ) - (natLog2 d : ℤ)
  if ratLtPow n d k then k - 1 else k

/-- Round the ratio `a / b` (with `b ≥ 1`) to the nearest natural,
halves to the even one: IEEE round-to-nearest-even at integer
granularity. -/
def rnEvenRatio (a b : Nat) : Nat :=
  let q := a / b
  let r := a % b
  if 2 * r < b then q
  else if b < 2 * r then q + 1
  else if q % 2 = 0 then q else q + 1

/-- The nearest double to `n / d` (for `n`, `d ≥ 1`), as a significand
and ulp-exponent pair: snap to the grid of spacing
`2 ^ (⌊log₂ (n/d)⌋ - 52)`, halves to even.  This is the correctly
rounded result of the float division `n / d`. -/
def flRat (n d : Nat) : Nat × ℤ :=
  let u : ℤ := floorLog2Rat n d - 52
  if 0 ≤ u then (rnEvenRatio n (d * 2 ^ u.toNat), u)
  else (rnEvenRatio (n * 2 ^ (-u).toNat) d, u)

/-- The correctly rounded result of multiplying the double `m * 2 ^ u`
by the exact integer `100`: a product of at most 52 significant bits
is exact, otherwise the product is rounded back to 53 bits, halves to
even. -/
def flTimes100 (m : Nat) (u : ℤ) : Nat × ℤ :=
  let s := 100 * m
  if s = 0 then (0, 0)
  else
    let L := natLog2 s
    if L ≤ 52 then (s, u)
    else (rnEvenRatio s (2 ^ (L - 52)), u + (L - 52))

/-- Truncation toward zero (Python `int()`) of the non-negative double
`m * 2 ^ u`. -/
def dyadicTrunc (m : Nat) (u : ℤ) : Nat :=
  if 0 ≤ u then m * 2 ^ u.toNat else m / 2 ^ (-u).toNat

/-- `int((ts / 400) * 100)` in Python float arithmetic: divide by 400
with correct rounding, multiply by 100 with correct rounding, then
truncate toward zero.  (`0 / 400` is exactly `0.0`.) -/
def normalizeScore (ts : Nat) : Nat :=
  if ts = 0 then 0
  else
    let d1 := flRat ts 400
    let d2 := flTimes100 d1.1 d1.2
    dyadicTrunc d2.1 d2.2

/-! ## `relevance_scorer.RelevanceScorer` -/

/-- One keyword category of `KEYWORD_WEIGHTS`: its weight and keyword
list. -/
structure ScoreCategory where
  weight : Nat
  keywords : List (List Char)

/-- The `KEYWORD_WEIGHTS` table of `relevance_scorer.py`, in
declaration order. -/
def KEYWORD_WEIGHTS : List (String × ScoreCategory) :=
  [("core",
    ⟨10, [s2l "epilepsy", s2l "seizure", s2l "interictal", s2l "ictal",
          s2l "epileptiform", s2l "anticonvulsant", s2l "antiepileptic",
          s2l "temporal lobe epilepsy"]⟩),
   ("modality",
    ⟨8, [s2l "iEEG", s2l "intracranial EEG", s2l "sEEG", s2l "stereo-EEG",
         s2l "ECoG", s2l "electrocorticography", s2l "depth electrode",
         s2l "subdural"]⟩),
   ("regions",
    ⟨7, [s2l "thalamus", s2l "thalamic", s2l "hippocampus", s2l "hippocampal",
         s2l "anterior nucleus", s2l "centromedian", s2l "pulvinar",
         s2l "limbic system", s2l "amygdala"]⟩),
   ("neuromodulation",
    ⟨8, [s2l "deep brain stimulation", s2l "DBS", s2l "responsive neurostimulation",
         s2l "RNS", s2l "neuromodulation", s2l "electrical stimulation",
         s2l "closed-loop", s2l "adaptive stimulation"]⟩),
   ("biomarkers",
    ⟨7, [s2l "biomarker", s2l "seizure prediction", s2l "seizure forecasting",
         s2l "brain state", s2l "connectivity", s2l "functional connectivity",
         s2l "high-frequency oscillation", s2l "HFO"]⟩),
   ("methods",
    ⟨6, [s2l "machine learning", s2l "deep learning", s2l "neural network",
         s2l "foundation model", s2l "transformer", s2l "LSTM", s2l "CNN",
         s2l "dynamical systems", s2l "Koopman", s2l "state space model"]⟩),
   ("clinical",
    ⟨5, [s2l "drug-resistant", s2l "refractory epilepsy", s2l "surgical",
         s2l "resection", s2l "epilepsy surgery", s2l "seizure freedom",
         s2l "clinical trial", s2l "patient"]⟩),
   ("devices",
    ⟨6, [s2l "NeuroPace", s2l "Medtronic", s2l "Summit", s2l "RC+S",
         s2l "Percept", s2l "Neuropixels", s2l "Precision Neuroscience",
         s2l "Axoft"]⟩)]

/-- Weighted match total of one keyword in `score_paper`: title
occurrences count three times, abstract occurrences twice, full-text
occurrences once but capped at ten (and zero when no full text was
given). -/
def keywordMatches (tl al ftl : List Char) (hasFull : Bool)
    (kw : List Char) : Nat :=
  pyCount tl (lowerStr kw) * 3 + pyCount al (lowerStr kw) * 2 +
  (if hasFull then min (pyCount ftl (lowerStr kw)) 10 else 0)

/-- The per-category match count accumulated by `score_paper`'s inner
loop (keywords with zero matches contribute zero). -/
def categoryMatches (tl al ftl : List Char) (hasFull : Bool)
    (kws : List (List Char)) : Nat :=
  kws.foldl (fun acc kw => acc + keywordMatches tl al ftl hasFull kw) 0

/-- The `total_score` accumulated by `score_paper`'s outer loop: each
matching category contributes its match count times its weight, capped
at `weight * 5`. -/
def totalScore (tl al ftl : List Char) (hasFull : Bool) : Nat :=
  KEYWORD_WEIGHTS.foldl
    (fun acc c =>
      let cm := categoryMatches tl al ftl hasFull c.2.keywords
      if 0 < cm then acc + min (cm * c.2.weight) (c.2.weight * 5) else acc)
    0

/-- `RelevanceScorer.score_paper` (the score component; the textual
reasons list is not modelled): lower-case the three sections, total
the weighted category matches, and normalize by
`min(int((total_score / 400) * 100), 100)` in double arithmetic. -/
def score_paper (title abstract full : List Char) : ℤ :=
  let tl := lowerStr title
  let al := lowerStr abstract
  let ftl := if full.isEmpty then [] else lowerStr full
  let ts := totalScore tl al ftl (!full.isEmpty)
  min ((normalizeScore ts : ℤ)) 100

/-- The claim's total, written as the spec states it: the sum over
keyword categories of the per-category weighted match count, each
category's contribution capped at `weight × 5`. -/
def specTotalWeighted (title abstract full : List Char) : Nat :=
  let tl := lowerStr title
  let al := lowerStr abstract
  let ftl := if full.isEmpty then [] else lowerStr full
  (KEYWORD_WEIGHTS.map
    (fun c =>
      min (categoryMatches tl al ftl (!full.isEmpty) c.2.keywords * c.2.weight)
          (c.2.weight * 5))).sum

/-- The claim's scoring formula: `min(100, round(100 × total / 400))`
in exact rational arithmetic. -/
def claimScoreFormula (total : Nat) : ℤ :=
  min 100 (round ((100 * (total : ℚ)) / 400))

/-! ## `field_detector.FieldDetector.detect_fields` (scoring loop) -/

/-- One configured research field: its keyword list and weight. -/
structure FieldCfg where
  keywords : List (List Char)
  weight : ℚ

/-- The keyword-match count of one field in `detect_fields`: a
substring match counts `1`, otherwise a single-word keyword found in
the query's word set counts `0.8`. -/
def fieldMatches (ql : List Char) (qwords : List (List Char))
    (kws : List (List Char)) : ℚ :=
  kws.foldl
    (fun acc kw =>
      let kl := lowerStr kw
      if containsSub ql kl then acc + 1
      else if (splitWs kl).length = 1 && qwords.contains kl then acc + 4/5
      else acc)
    0

/-- The `field_scores` map built by `detect_fields`: for each field
with a positive match count, `raw_score = (matches / #keywords) ×
weight`; fields with zero matches are absent. -/
def detect_field_scores (fields : List (String × FieldCfg))
    (cleanQuery : List Char) : List (String × ℚ) :=
  let ql := lowerStr cleanQuery
  let qwords := splitWs ql
  fields.filterMap
    (fun f =>
      let m := fieldMatches ql qwords f.2.keywords
      if 0 < m then some (f.1, m / (f.2.keywords.length : ℚ) * f.2.weight)
      else none)

/-- The claim's per-keyword contribution, phrased as in the spec: a
keyword occurring as a substring of the lowercased query counts `1.0`,
and a single-word keyword matching only at word level (not as a
substring) counts `0.8`. -/
def specKeywordContribution (ql : List Char) (qwords : List (List Char))
    (kw : List Char) : ℚ :=
  let kl := lowerStr kw
  (if containsSub ql kl then 1 else 0) +
  (if !containsSub ql kl && ((splitWs kl).length = 1 && qwords.contains kl)
   then 4/5 else 0)

/-- The claim's raw-score table: `(keyword_matches /
number_of_keywords_in_field) × field_weight` with the spec's match
counting, fields with zero matches receiving no score. -/
def spec_field_scores (fields : List (String × FieldCfg))
    (cleanQuery : List Char) : List (String × ℚ) :=
  let ql := lowerStr cleanQuery
  let qwords := splitWs ql
  fields.filterMap
    (fun f =>
      let m := (f.2.keywords.map (specKeywordContribution ql qwords)).sum
      if 0 < m then some (f.1, m / (f.2.keywords.length : ℚ) * f.2.weight)
      else none)

/-! ## `topic_classifier.TopicClassifier` -/

/-- The `TOPIC_CONFIG` table: bucket name, cache TTL in hours, and
keyword list, in declaration order. -/
def TOPIC_CONFIG : List (String × Nat × List (List Char)) :=
  [("epilepsy_clinical", 168,
    [s2l "epilepsy", s2l "seizure", s2l "interictal", s2l "ictal",
     s2l "epileptiform", s2l "iEEG", s2l "sEEG", s2l "ECoG",
     s2l "thalamus", s2l "hippocampus", s2l "deep brain stimulation",
     s2l "DBS", s2l "RNS", s2l "responsive neurostimulation",
     s2l "antiepileptic", s2l "anticonvulsant",
     s2l "temporal lobe epilepsy"]),
   ("methods_reviews", 720,
    [s2l "review", s2l "systematic review", s2l "meta-analysis",
     s2l "survey", s2l "methods", s2l "algorithm", s2l "framework",
     s2l "open source", s2l "benchmark", s2l "dataset", s2l "tutorial",
     s2l "perspective"]),
   ("foundational", 720,
    [s2l "foundation model", s2l "pretrain", s2l "self-supervised",
     s2l "transfer learning", s2l "large language model",
     s2l "transformer", s2l "BERT", s2l "GPT", s2l "generative model"]),
   ("general", 24, [])]

/-- The case-insensitive occurrence score of one bucket:
`sum(text.count(kw.lower()) for kw in keywords)`. -/
def topicScore (text : List Char) (kws : List (List Char)) : Nat :=
  kws.foldl (fun acc kw => acc + pyCount text (lowerStr kw)) 0

/-- The `topic_scores` dict of `classify` (the `general` bucket is
skipped), in declaration order. -/
def topicScores (text : List Char) : List (String × Nat) :=
  (TOPIC_CONFIG.filter (fun tc => tc.1 ≠ "general")).map
    (fun tc => (tc.1, topicScore text tc.2.2))

/-- Python `max(scores, key=scores.get)` over a non-empty association
list: the first entry wins ties, a later entry replaces the current
best only when strictly greater. -/
def pyMaxFirst (x : String × Nat) (xs : List (String × Nat)) : String :=
  (xs.foldl (fun b p => if b.2 < p.2 then p else b) x).1

/-- `config[topic]['ttl_hours']` lookup in `TOPIC_CONFIG` (every topic
produced by `classify` is in the table, so the default is never
used). -/
def topicTtl (name : String) : Nat :=
  match TOPIC_CONFIG.find? (fun tc => tc.1 = name) with
  | some tc => tc.2.1
  | none => 0

/-- `TopicClassifier.classify` with the default configuration:
lower-case `f"{title} {abstract}"`, score each non-general bucket,
fall back to `general` when the score dict is empty or its maximum is
zero, otherwise take `max(topic_scores, key=topic_scores.get)`; return
the bucket with its TTL. -/
def classify (title abstract : List Char) : String × Nat :=
  let text := lowerStr (title ++ ' ' :: abstract)
  let scores := topicScores text
  let best :=
    match scores with
    | [] => "general"
    | x :: xs =>
        if (x :: xs).foldl (fun a p => max a p.2) 0 = 0 then "general"
        else pyMaxFirst x xs
  (best, topicTtl best)

/-- The claim's classification, phrased as in the spec: the bucket
with the strictly highest nonzero score, ties resolved in favour of
the first-declared bucket, and `general` when all scores are zero. -/
def specClassify (title abstract : List Char) : String × Nat :=
  let text := lowerStr (title ++ ' ' :: abstract)
  let scores := topicScores text
  let m := (scores.map (fun p => p.2)).foldr max 0
  let best :=
    if m = 0 then "general"
    else match scores.find? (fun p => p.2 = m) with
         | some p => p.1
         | none => "general"
  (best, topicTtl best)

/-! ## `relevance_scorer.py` module namespace (import-time names)

`RelevanceScorer.__init__` annotates its parameter with
`Optional[Dict]`; Python evaluates that annotation while executing the
`class` body at import time, resolving each name in the module's
global namespace. -/

/-- The names `relevance_scorer.py` imports from `typing`
(line 11 of the module): `Dict, List, Tuple`. -/
def typingImports : List String := ["Dict", "List", "Tuple"]

/-- All module-level names bound in `relevance_scorer.py` before the
`class RelevanceScorer` body executes: the imports (`json`, `logging`,
`Path`, the three `typing` names) plus `logger` and
`KEYWORD_WEIGHTS`. -/
def scorerModuleNames : List String :=
  ["json", "logging", "Path"] ++ typingImports ++ ["logger", "KEYWORD_WEIGHTS"]

/-- The names referenced by the `__init__` parameter annotation
`Optional[Dict]`. -/
def initAnnotationNames : List String := ["Optional", "Dict"]

/-- Evaluate an annotation expression: look up each referenced name in
the module namespace; the first unbound name raises `NameError`
carrying that name. -/
def evalAnnotationNames (env : List String) (names : List String) :
    Except String Unit :=
  match names.find? (fun n => !env.contains n) with
  | some n => .error n
  | none => .ok ()


/-! # Theorems -/

theorem pyStrip_nil : pyStrip [] = [] := rfl

/-- **C2.** Sanitizer whitelist property: for every input whose trimmed
form is non-empty, at most 200 characters, drawn only from the allowed
character class, and free of the six injection signatures,
`sanitize_query` returns the trimmed string unchanged; for every input
violating any of these constraints it returns `none`. -/
theorem sanitize_query_whitelist (q : List Char) :
    sanitize_query q = if sanitizeSpecOk q then some (pyStrip q) else none := by
  unfold sanitize_query sanitizeSpecOk
  by_cases hq : q = []
  · subst hq
    simp [pyStrip_nil]
  · simp only [hq, ite_false]
    by_cases h1 : 200 < (pyStrip q).length
    · have h1' : ¬ (pyStrip q).length ≤ 200 := by omega
      simp [h1, h1']
    · have h1' : (pyStrip q).length ≤ 200 := by omega
      by_cases h2 : (pyStrip q).isEmpty
      · simp [h1, h1', h2]
      · by_cases h3 : (pyStrip q).all allowedChar
        · by_cases h4 : hasDangerousPattern (pyStrip q)
          · simp [h1, h1', h2, h3, h4]
          · simp [h1, h1', h2, h3, h4]
        · simp [h1, h1', h2, h3]

theorem rate_limit_gap (c s : ℚ) (_hs : c ≤ s) :
    c + 2 ≤ (rate_limit_request s (some c)).1 ∧
    (rate_limit_request s (some c)).2 = (rate_limit_request s (some c)).1 := by
  unfold rate_limit_request RATE_LIMIT_SECONDS
  by_cases h : s - c < 2
  · simp only [h, if_pos]
    constructor
    · linarith
    · trivial
  · simp only [h, if_neg, ite_false]
    constructor
    · push_neg at h; linarith
    · trivial

theorem completions_chain (starts : List ℚ) (c : ℚ)
    (h : chainOk (some c) starts = true) :
    List.Chain (fun a b => a + 2 ≤ b) c (completions (some c) starts) := by
  induction starts generalizing c with
  | nil => exact List.Chain.nil
  | cons s rest ih =>
      simp only [chainOk, Bool.and_eq_true, decide_eq_true_eq] at h
      obtain ⟨hcs, hrest⟩ := h
      have hg := rate_limit_gap c s hcs
      simp only [completions]
      exact List.Chain.cons hg.1 (by rw [hg.2] at hrest ⊢; exact ih _ hrest)

/-- **C5.** Rate-limiter monotonic-gap property: for every back-to-back
admissible sequence of `rate_limit_request` calls for one source, the
modelled wall-clock time between consecutive completions is at least
2.0 seconds; and a call whose last call is 2.0 or more seconds in the
past proceeds without suspension (it completes at its start time). -/
theorem rate_limit_monotonic_gap (starts : List ℚ)
    (h : chainOk none starts = true) :
    List.Chain' (fun a b => a + 2 ≤ b) (completions none starts) ∧
    (∀ last now : ℚ, RATE_LIMIT_SECONDS ≤ now - last →
      rate_limit_request now (some last) = (now, now)) := by
  constructor
  · cases starts with
    | nil => simp [completions]
    | cons s rest =>
        have hrest : chainOk (some s) rest = true := h
        have hchain := completions_chain rest s hrest
        simpa [completions, rate_limit_request] using hchain
  · intro last now hge
    have hnot : ¬ (now - last < RATE_LIMIT_SECONDS) := not_lt.mpr hge
    simp only [rate_limit_request, hnot, ite_false]

/-- Witness for C5 at the start times `[0, 1, 4]` (call 2 starts while
call 1's completion is less than 2 s old and is suspended; call 3
starts exactly 2 s after call 2's completion and is not). -/
theorem rate_limit_monotonic_gap_witness :
    List.Chain' (fun a b : ℚ => a + 2 ≤ b) (completions none [0, 1, 4]) ∧
    rate_limit_request 10 (some 3) = (10, 10) := by
  have h := rate_limit_monotonic_gap [0, 1, 4]
    (by norm_num [chainOk, rate_limit_request, RATE_LIMIT_SECONDS])
  exact ⟨h.1, h.2 3 10 (by norm_num [RATE_LIMIT_SECONDS])⟩

/-- **C1 (counterexample).** The claim says a query classified as
clinically-stable (TTL 168 h) is cached with a 168-hour expiry; but
`cache_results` passes the fixed `expire=86400` (24 hours) for every
write, and `86400 s ≠ 168 h`. -/
theorem cache_ttl_not_topic_dependent :
    classify (s2l "epilepsy") [] = ("epilepsy_clinical", 168) ∧
    (cache_results ([] : List StdPaper) 0).expireSeconds = 86400 ∧
    (86400 : ℚ) ≠ 168 * 3600 := by
  refine ⟨by decide, rfl, by norm_num⟩

/-- **C1 (amended).** Every `cache_results` write uses the fixed
24-hour TTL `expire=86400`, independent of any topic classification;
and freshness *is* re-evaluated at read time: `get_cached_results`
returns the stored results exactly when the entry's age is below 24
hours. -/
theorem cache_ttl_fixed_24h {α : Type} (results : α) (now : ℚ)
    (it : CachedItem α) (t : ℚ) :
    (cache_results results now).expireSeconds = 86400 ∧
    get_cached_results (α := α) none t = none ∧
    ((get_cached_results (some it) t).isSome ↔ t - it.timestamp < 86400) := by
  refine ⟨rfl, rfl, ?_⟩
  unfold get_cached_results
  by_cases h : t - it.timestamp < 24 * 3600
  · simp only [h, if_pos, Option.isSome_some, true_iff]
    linarith [h]
  · simp only [h, ite_false, Option.isSome_none]
    constructor
    · intro hfalse; cases hfalse
    · intro hlt; exact absurd (by linarith : t - it.timestamp < 24 * 3600) h

/-- **C3.** For every remote-fetch outcome (timeout, connection error,
non-2xx HTTP status including 429, malformed response body, per-record
parse failure), each adapter's search returns a list — possibly
empty — and never propagates an exception to the caller. -/
theorem adapters_never_raise :
    (∀ (cy : ℤ) (r : HttpResult JsonBody),
        ∃ papers, s2_search_papers cy r = .ok papers) ∧
    (∀ (cy : ℤ) (r1 : HttpResult PmidBody) (r2 : HttpResult XmlBody),
        ∃ papers, pubmed_search_papers cy r1 r2 = .ok papers) := by
  constructor
  · intro cy r
    unfold s2_search_papers pyTry
    cases s2_search_body cy r with
    | ok l => exact ⟨l, rfl⟩
    | error e => exact ⟨[], rfl⟩
  · intro cy r1 r2
    unfold pubmed_search_papers pyTry pubmed_search_body
    by_cases h : pubmed_search_pmids r1 = []
    · simp only [h, if_pos]
      exact ⟨[], rfl⟩
    · simp only [h, ite_false]
      exact ⟨_, rfl⟩

/-- **C4 (counterexample).** A record whose `year` key holds the value
`0` passes `validate_paper_data` (the `if year:` truthiness test skips
the range check), but the claim's gate requires `1900 ≤ year`, so the
claimed equivalence fails at this record. -/
theorem validate_year_zero_counterexample :
    validate_paper_data 2025
      { title := some "T", authors := some ["A"], year := some (some 0) } = true ∧
    claimValidRecord 2025
      { title := some "T", authors := some ["A"], year := some (some 0) } = false := by
  exact ⟨by decide, by decide⟩

/-- **C4 (amended).** `validate_paper_data` accepts a record exactly
when `title`, `authors`, `year` are present, the title has at most 500
characters, and any *truthy* (non-`None`, non-zero) year value lies in
`[1900, current_year + 1]`; and every record failing this gate is
dropped by both adapters — each member of an adapter's returned list
passes the gate. -/
theorem validate_gate (cy : ℤ) :
    (∀ p : PaperRecord,
        validate_paper_data cy p = amendedValidRecord cy p) ∧
    (∀ (r : HttpResult JsonBody) (l : List StdPaper) (p : StdPaper),
        s2_search_papers cy r = .ok l → p ∈ l →
        validate_paper_data cy (stdToRecord p) = true) ∧
    (∀ (r1 : HttpResult PmidBody) (r2 : HttpResult XmlBody)
        (l : List PubmedPaper) (p : PubmedPaper),
        pubmed_search_papers cy r1 r2 = .ok l → p ∈ l →
        validate_paper_data cy (pubmedToRecord p) = true) := by
  refine ⟨?_, ?_, ?_⟩
  · intro p
    rcases p with ⟨t, a, y⟩
    cases t with
    | none => rfl
    | some ts =>
        cases a with
        | none => rfl
        | some as =>
            cases y with
            | none => rfl
            | some yv =>
                unfold validate_paper_data amendedValidRecord
                by_cases hl : 500 < ts.length
                · have hl' : ¬ ts.length ≤ 500 := by omega
                  simp [hl, hl']
                · have hl' : ts.length ≤ 500 := by omega
                  cases yv with
                  | none => simp [hl, hl']
                  | some yy =>
                      by_cases hy : yy = 0
                      · simp [hl, hl', hy]
                      · simp [hl, hl', hy]
  · intro r l p hok hmem
    cases r with
    | timeout =>
        have h0 : s2_search_papers cy .timeout = .ok ([] : List StdPaper) := rfl
        rw [h0] at hok; cases hok; cases hmem
    | connError =>
        have h0 : s2_search_papers cy .connError = .ok ([] : List StdPaper) := rfl
        rw [h0] at hok; cases hok; cases hmem
    | success status body =>
        by_cases hs : status = 200
        · subst hs
          cases body with
          | malformed =>
              have h0 : s2_search_papers cy (.success 200 .malformed) =
                  .ok ([] : List StdPaper) := rfl
              rw [h0] at hok; cases hok; cases hmem
          | parsed ps =>
              have h0 : s2_search_papers cy (.success 200 (.parsed ps)) =
                  .ok ((ps.map standardize_paper).filter
                    (fun q => validate_paper_data cy (stdToRecord q))) := rfl
              rw [h0] at hok; cases hok
              exact (List.mem_filter.mp hmem).2
        · have h0 : s2_search_papers cy (.success status body) =
              .ok ([] : List StdPaper) := by
            unfold s2_search_papers pyTry s2_search_body s2_request
            simp only [bind, Except.bind, hs, ite_false, pure, Except.pure]
          rw [h0] at hok; cases hok; cases hmem
  · intro r1 r2 l p hok hmem
    unfold pubmed_search_papers pyTry pubmed_search_body at hok
    by_cases h1 : pubmed_search_pmids r1 = []
    · simp only [h1, if_pos] at hok
      cases hok; cases hmem
    · simp only [h1, ite_false] at hok
      have hl : l = pubmed_fetch_details cy (pubmed_search_pmids r1) r2 := by
        cases hok; rfl
      subst hl
      unfold pubmed_fetch_details at hmem
      rw [if_neg h1] at hmem
      cases r2 with
      | timeout => cases hmem
      | connError => cases hmem
      | success status body =>
          dsimp only at hmem
          by_cases hs : status = 200
          · subst hs
            rw [if_pos rfl] at hmem
            cases body with
            | malformedXml => cases hmem
            | articles arts =>
                dsimp only at hmem
                obtain ⟨a, _, ha⟩ := List.mem_filterMap.mp hmem
                cases a with
                | none => cases ha
                | some q =>
                    by_cases hv : validate_paper_data cy (pubmedToRecord q) = true
                    · simp only [hv, if_pos] at ha
                      cases ha
                      exact hv
                    · simp only [hv] at ha
                      simp only [Bool.false_eq_true, if_neg, ite_false] at ha
                      cases ha
          · rw [if_neg hs] at hmem
            cases hmem

/-- Witness for C4: the amended-gate equivalence at a concrete record,
and both adapter gates at a concrete successful fetch containing one
valid record. -/
theorem validate_gate_witness :
    validate_paper_data 2025
      { title := some "T", authors := some ["A"], year := some (some 2020) } =
      amendedValidRecord 2025
      { title := some "T", authors := some ["A"], year := some (some 2020) } ∧
    validate_paper_data 2025 (stdToRecord (standardize_paper
      ⟨some "T", [some "A"], some 2020, none, none, none, none, none, none, none⟩)) =
      true := by
  constructor
  · exact (validate_gate 2025).1 _
  · exact (validate_gate 2025).2.1
      (.success 200 (.parsed
        [⟨some "T", [some "A"], some 2020, none, none, none, none, none, none, none⟩]))
      _ _ rfl (List.mem_singleton_self _)

/-- **C10.** As shipped, evaluating the `RelevanceScorer` class body
raises `NameError` at module import time: the `__init__` parameter
annotation `Optional[Dict]` references `Optional`, which is bound
nowhere in the module — only `Dict`, `List` and `Tuple` are imported
from `typing`. -/
theorem scorer_import_name_error :
    evalAnnotationNames scorerModuleNames initAnnotationNames =
      .error "Optional" ∧
    "Optional" ∉ scorerModuleNames ∧
    "Dict" ∈ typingImports ∧ "List" ∈ typingImports ∧
    "Tuple" ∈ typingImports ∧ "Optional" ∉ typingImports := by
  refine ⟨by rfl, by decide, by decide, by decide, by decide, by decide⟩

theorem capped_foldl_eq_sum (tl al ftl : List Char) (hf : Bool) :
    ∀ (l : List (String × ScoreCategory)) (acc : Nat),
      List.foldl (fun acc c =>
          let cm := categoryMatches tl al ftl hf c.2.keywords
          if 0 < cm then acc + min (cm * c.2.weight) (c.2.weight * 5) else acc)
        acc l
      = acc + (List.map (fun c =>
          min (categoryMatches tl al ftl hf c.2.keywords * c.2.weight)
              (c.2.weight * 5)) l).sum := by
  intro l
  induction l with
  | nil => intro acc; simp
  | cons c t ih =>
      intro acc
      simp only [List.foldl_cons, List.map_cons, List.sum_cons]
      by_cases h : 0 < categoryMatches tl al ftl hf c.2.keywords
      · simp only [h, if_pos]
        rw [ih]
        omega
      · have h0 : categoryMatches tl al ftl hf c.2.keywords = 0 := by omega
        simp only [h0, lt_irrefl, if_neg, ite_false]
        rw [ih]
        have hmin : 0 * c.2.weight ⊓ c.2.weight * 5 = 0 := by
          rw [Nat.zero_mul]
          exact min_eq_left (Nat.zero_le _)
        rw [hmin]
        omega

/-- **C7.** `score_paper` returns an integer in `[0, 100]` for every
title, abstract and full text; with empty title and abstract and no
full text it returns `0`. -/
theorem score_paper_bounded (title abstract full : List Char) :
    (0 ≤ score_paper title abstract full ∧
     score_paper title abstract full ≤ 100) ∧
    score_paper [] [] [] = 0 := by
  refine ⟨⟨?_, ?_⟩, by decide⟩
  · exact le_min (Int.natCast_nonneg _) (by norm_num)
  · exact min_le_right _ _

/-- **C6 (counterexample).** With title and abstract empty and the full
text `"machine learning"`, the weighted total is `6`; the claim's
formula `min(100, round(100 × 6 / 400)) = round(1.5) = 2`, but the
code truncates the float value `1.5` with `int()` and returns `1`. -/
theorem score_paper_round_counterexample :
    score_paper [] [] (s2l "machine learning") = 1 ∧
    specTotalWeighted [] [] (s2l "machine learning") = 6 ∧
    claimScoreFormula 6 = 2 ∧
    score_paper [] [] (s2l "machine learning") ≠
      claimScoreFormula (specTotalWeighted [] [] (s2l "machine learning")) := by
  have h1 : score_paper [] [] (s2l "machine learning") = 1 := by decide
  have h2 : specTotalWeighted [] [] (s2l "machine learning") = 6 := by decide
  have h3 : claimScoreFormula 6 = 2 := by
    norm_num [claimScoreFormula, round_eq]
  refine ⟨h1, h2, h3, ?_⟩
  rw [h1, h2, h3]
  decide

/-- **C6 (amended).** `score_paper` returns
`min(100, int((total / 400) * 100))` computed in double-precision
float arithmetic and truncated toward zero (not rounded to nearest),
where `total` is the sum over keyword categories of the per-category
weighted match count, each category's contribution capped at
`weight × 5`. -/
theorem score_paper_truncated_formula (title abstract full : List Char) :
    score_paper title abstract full =
      min ((normalizeScore (specTotalWeighted title abstract full) : ℤ)) 100 := by
  simp only [score_paper, specTotalWeighted, totalScore]
  rw [capped_foldl_eq_sum]
  simp

theorem fieldMatches_eq_sum (ql : List Char) (qwords : List (List Char)) :
    ∀ (kws : List (List Char)) (acc : ℚ),
      List.foldl (fun acc kw =>
          let kl := lowerStr kw
          if containsSub ql kl then acc + 1
          else if (splitWs kl).length = 1 && qwords.contains kl then acc + 4/5
          else acc) acc kws
      = acc + (kws.map (specKeywordContribution ql qwords)).sum := by
  intro kws
  induction kws with
  | nil => intro acc; simp
  | cons kw t ih =>
      intro acc
      simp only [List.foldl_cons, List.map_cons, List.sum_cons]
      by_cases h1 : containsSub ql (lowerStr kw)
      · simp only [h1, if_pos, specKeywordContribution, Bool.not_true,
          Bool.false_and, Bool.false_eq_true, ite_false, if_pos, ite_true]
        rw [ih]
        ring
      · by_cases h2 : ((splitWs (lowerStr kw)).length = 1 &&
            qwords.contains (lowerStr kw)) = true
        · simp only [h1, Bool.false_eq_true, ite_false, h2, ite_true,
            specKeywordContribution, Bool.not_false, Bool.true_and]
          rw [ih]
          ring
        · simp only [h1, Bool.false_eq_true, ite_false, h2,
            specKeywordContribution, Bool.not_false, Bool.true_and]
          rw [ih]
          ring

/-- **C8.** The field detector's raw-score table equals the spec's:
for every configured field, `raw_score = (keyword_matches /
number_of_keywords_in_field) × field_weight`, where a keyword
occurring as a substring of the lowercased query counts `1.0`, a
single-word keyword matching only at word level counts `0.8`, and
fields with zero matches receive no score. -/
theorem detect_fields_raw_score (fields : List (String × FieldCfg))
    (query : List Char) :
    detect_field_scores fields query = spec_field_scores fields query := by
  unfold detect_field_scores spec_field_scores
  apply List.filterMap_congr
  intro f _
  unfold fieldMatches
  rw [fieldMatches_eq_sum]
  simp

set_option maxRecDepth 100000

/-- **C9.** `classify` returns the bucket with the strictly highest
nonzero keyword score, resolving ties in favour of the first-declared
bucket, and `general` when all scores are zero; in particular the
title `"Thalamic DBS for Drug-Resistant Epilepsy"` with an abstract
mentioning deep brain stimulation and iEEG yields
`epilepsy_clinical` with TTL 168 hours. -/
theorem classify_first_declared_max :
    (∀ title abstract : List Char,
        classify title abstract = specClassify title abstract) ∧
    classify (s2l "Thalamic DBS for Drug-Resistant Epilepsy")
      (s2l "We tested deep brain stimulation in 10 patients with intractable seizures using iEEG.") =
      ("epilepsy_clinical", 168) := by
  constructor
  · intro t a
    simp only [classify, specClassify]
    obtain ⟨s1, s2, s3, hs⟩ : ∃ s1 s2 s3, topicScores (lowerStr (t ++ ' ' :: a)) =
        [("epilepsy_clinical", s1), ("methods_reviews", s2), ("foundational", s3)] :=
      ⟨_, _, _, rfl⟩
    rw [hs]
    simp only [List.foldl, List.map, List.foldr, List.find?, pyMaxFirst]
    simp only [Nat.zero_max, Nat.max_zero, Nat.max_assoc]
    by_cases hz : s1 ⊔ (s2 ⊔ s3) = 0
    · simp [hz]
    · simp only [hz, ite_false]
      by_cases e1 : s1 = s1 ⊔ (s2 ⊔ s3)
      · rw [decide_eq_true e1]
        have h21 : ¬ s1 < s2 := by omega
        have h31 : ¬ s1 < s3 := by omega
        simp [h21, h31]
      · rw [decide_eq_false e1]
        by_cases e2 : s2 = s1 ⊔ (s2 ⊔ s3)
        · rw [decide_eq_true e2]
          have h12 : s1 < s2 := by omega
          have h32 : ¬ s2 < s3 := by omega
          simp [h12, h32]
        · rw [decide_eq_false e2]
          have e3 : s3 = s1 ⊔ (s2 ⊔ s3) := by omega
          rw [decide_eq_true e3]
          have h13 : s1 < s3 := by omega
          have h23 : s2 < s3 := by omega
          by_cases h12 : s1 < s2
          · simp [h12, h23]
          · simp [h12, h13]
  · decide


end Skills
